import Mathlib

/-!
Verification of the "Real Income by State Explorer" dashboard (src/app.py)
against its natural-language specification.

The script is embedded shallowly: the uploaded spreadsheet becomes a list of
rows, pandas column operations become list transformations over ℚ (with NaN
modelled as `Option.none`), and the three user-visible outcomes of a render
step (normal value, `st.warning`/`st.error` followed by `st.stop`, unhandled
Python exception) become the `Outcome` type.
-/

namespace RealIncomeExplorer

/-- A parsed timestamp, as produced by `pd.to_datetime`.  Only the calendar
fields are relevant to the program (`dt.year` is the sole accessor used). -/
structure Date where
  year : Int
  month : Nat
  day : Nat
deriving DecidableEq

/-- One row of the uploaded sheet `cleaned_long`, after cell-level parsing:
`date` is the result of `pd.to_datetime(..., errors="coerce")` (`none` = NaT,
i.e. a missing or unparseable date), `value` is `none` when the numeric cell
is NaN/missing.  `geo`, `series` and `topic` are the string renderings that
`astype(str)` produces. -/
structure RawRow where
  date : Option Date
  geo : String
  geo_level : String
  series : String
  topic : String
  value : Option ℚ
deriving DecidableEq

/-- A row surviving `load_data`: non-null date and value, derived `year`. -/
structure LoadedRow where
  date : Date
  geo : String
  geo_level : String
  series : String
  topic : String
  value : ℚ
  year : Int
deriving DecidableEq

/-- The uploaded sheet: its column names and its rows. -/
structure RawFrame where
  cols : List String
  rows : List RawRow
deriving DecidableEq

/-- The dataframe returned by `load_data`. -/
structure Frame where
  cols : List String
  rows : List LoadedRow
deriving DecidableEq

/-- Outcome of a render step: a value, an abort with a user-facing message
(`st.warning`/`st.error` followed by `st.stop`), or an unhandled Python
exception. -/
inductive Outcome (α : Type) where
  | ok : α → Outcome α
  | userAbort : String → Outcome α
  | exception : String → Outcome α
deriving DecidableEq

/-- Python `str.lower()` (character-wise lower-casing; the column names and
topics of this dataset are ASCII). -/
def lowerStr (s : String) : String :=
  String.mk (s.data.map Char.toLower)

/-- Python `str.upper()`. -/
def upperStr (s : String) : String :=
  String.mk (s.data.map Char.toUpper)

/-- Python `str.strip()`: remove leading and trailing whitespace. -/
def stripStr (s : String) : String :=
  String.mk (((s.data.dropWhile Char.isWhitespace).reverse.dropWhile
    Char.isWhitespace).reverse)

/-- Python `a <= b` on strings: lexicographic comparison by code point. -/
def charListLe : List Char → List Char → Bool
  | [], _ => true
  | _ :: _, [] => false
  | a :: as, b :: bs => if a < b then true else if b < a then false else charListLe as bs

/-- Comparison used to model Python `sorted` on strings. -/
def strLe (a b : String) : Prop :=
  charListLe a.data b.data = true

instance (a b : String) : Decidable (strLe a b) := by
  unfold strLe
  infer_instance

/-- `df.columns = [c.strip().lower() for c in df.columns]` (app.py line 29). -/
def normalizeColumns (cols : List String) : List String :=
  cols.map (fun c => lowerStr (stripStr c))

/-- Row-level body of `load_data`: parse date, upper-case `geo`, keep the
string fields, drop the row if `date` or `value` is null, derive `year`
(app.py lines 30-36). -/
def loadRow (r : RawRow) : Option LoadedRow :=
  match r.date, r.value with
  | some d, some v =>
      some { date := d, geo := upperStr r.geo, geo_level := r.geo_level,
             series := r.series, topic := r.topic, value := v, year := d.year }
  | _, _ => none

/-- `load_data` (app.py lines 26-38).  Accessing a missing column raises an
unhandled `KeyError`; the accesses happen in source order (`date`, `geo`,
`series`, `topic`, then `dropna(subset=["date","value"])` which needs
`value`).  `df["year"] = ...` appends a `year` column. -/
def load_data (f : RawFrame) : Outcome Frame :=
  let cols := normalizeColumns f.cols
  if "date" ∉ cols then .exception "KeyError: date"
  else if "geo" ∉ cols then .exception "KeyError: geo"
  else if "series" ∉ cols then .exception "KeyError: series"
  else if "topic" ∉ cols then .exception "KeyError: topic"
  else if "value" ∉ cols then .exception "KeyError: value"
  else .ok { cols := if "year" ∈ cols then cols else cols ++ ["year"],
             rows := f.rows.filterMap loadRow }

/-- Mean of a pandas series: NaN (`none`) on an empty selection. -/
def mean (l : List ℚ) : Option ℚ :=
  if l = [] then none else some (l.sum / l.length)

/-- `df[(df["geo_level"] == "national") & (df["series"] == "CPIAUCSL")]`
(app.py line 69). -/
def cpiRows (rows : List LoadedRow) : List LoadedRow :=
  rows.filter (fun r => r.geo_level == "national" && r.series == "CPIAUCSL")

/-- The distinct years of a row set, ascending — the group keys of
`groupby("year")`. -/
def cpiYears (rows : List LoadedRow) : List Int :=
  List.insertionSort (fun a b => a ≤ b)
    ((cpiRows rows).map (fun r => r.year)).dedup

/-- The CPI values observed in year `y`. -/
def yearValues (rows : List LoadedRow) (y : Int) : List ℚ :=
  (rows.filter (fun r => r.year == y)).map (fun r => r.value)

/-- `cpi_annual = cpi.groupby("year", as_index=False)["value"].mean()`
(app.py line 72): one `(year, mean value)` pair per distinct year. -/
def cpi_annual (rows : List LoadedRow) : List (Int × ℚ) :=
  (cpiYears rows).filterMap
    (fun y => (mean (yearValues (cpiRows rows) y)).map (fun m => (y, m)))

/-- `base_cpi = cpi_annual.loc[cpi_annual["year"] == base_year, "value"].mean()`
(app.py line 73): NaN when the base year is absent. -/
def base_cpi (rows : List LoadedRow) (base_year : Int) : Option ℚ :=
  mean (((cpi_annual rows).filter (fun p => p.1 == base_year)).map (fun p => p.2))

/-- Lines 75-79 of app.py: the guard `if pd.isna(base_cpi) or base_cpi == 0`
warns and stops; otherwise `cpi_annual["cpi_index"] = (value / base_cpi) * 100`. -/
def cpiIndexResult (rows : List LoadedRow) (base_year : Int) :
    Outcome (List (Int × ℚ)) :=
  match base_cpi rows base_year with
  | none => .userAbort "Invalid CPI base year selected."
  | some b =>
      if b = 0 then .userAbort "Invalid CPI base year selected."
      else .ok ((cpi_annual rows).map (fun p => (p.1, p.2 / b * 100)))

/-- Distinct elements in first-occurrence order: `Series.unique()`. -/
def uniqueFirstAux (seen : List String) : List String → List String
  | [] => []
  | x :: xs =>
      if x ∈ seen then uniqueFirstAux seen xs
      else x :: uniqueFirstAux (x :: seen) xs

/-- `df["topic"].unique().tolist()` keeps first occurrences in order. -/
def uniqueFirst (l : List String) : List String := uniqueFirstAux [] l

/-- The distinct topics of the loaded table, in first-occurrence order. -/
def topics (rows : List LoadedRow) : List String :=
  uniqueFirst (rows.map (fun r => r.topic))

/-- Python `"income" in str(t).lower()`: the lower-cased topic contains
`"income"` as a contiguous substring. -/
def hasIncomeWord (t : String) : Bool :=
  decide ("income".data <:+: (lowerStr t).data)

/-- `income_topics = [t for t in df["topic"].unique().tolist() if "income" in
str(t).lower()]` (app.py line 84). -/
def incomeTopics (rows : List LoadedRow) : List String :=
  (topics rows).filter hasIncomeWord

/-- Lines 85-90 of app.py: prefer `income_per_capita`, else the first topic
containing `"income"`, else none. -/
def income_topic (rows : List LoadedRow) : Option String :=
  if "income_per_capita" ∈ topics rows then some "income_per_capita"
  else
    match incomeTopics rows with
    | [] => none
    | t :: _ => some t

/-- Lines 92-94 of app.py: abort the render with `st.error` + `st.stop` when
no income topic exists. -/
def incomeTopicResult (rows : List LoadedRow) : Outcome String :=
  match income_topic rows with
  | none => .userAbort
      "This dataset does not include income data. Choose a different view or rebuild with BEA enabled."
  | some t => .ok t

/-- `sorted(df.loc[df["geo_level"].eq("state") & (df["geo"].str.len() == 2),
"geo"].unique())` (app.py lines 55-57). -/
def state_list (rows : List LoadedRow) : List String :=
  List.insertionSort strLe
    (((rows.filter (fun r => r.geo_level == "state" && r.geo.length == 2)).map
        (fun r => r.geo)).dedup)

/-- `st.sidebar.selectbox("State", state_list if state_list else ["MD"])`
(app.py line 59). -/
def stateOptions (rows : List LoadedRow) : List String :=
  if state_list rows = [] then ["MD"] else state_list rows

/-- `income = df[(df["topic"] == income_topic) & (df["geo_level"] == "state")
& (df["geo"].str.len() == 2)]` (app.py line 96). -/
def incomeRows (rows : List LoadedRow) (topic : String) : List LoadedRow :=
  rows.filter (fun r =>
    r.topic == topic && r.geo_level == "state" && r.geo.length == 2)

/-- A row of the income table once the deflator has been joined on. -/
structure IncomeRow where
  geo : String
  year : Int
  value : ℚ
  cpi_index : ℚ
  real_income : ℚ
deriving DecidableEq

/-- Modelled from the spec: app.py references a `real_income` column (lines
107-151) that is never assigned in the file — the join of the income table
with `cpi_annual` is missing from src.  Per the spec, `real_income` is the
"nominal value divided by (cpi_index/100)" where `cpi_index` is the row
year's index; rows whose year has no CPI index are dropped by the inner
join. -/
def addRealIncome (idx : List (Int × ℚ)) (rows : List LoadedRow) :
    List IncomeRow :=
  rows.filterMap (fun r =>
    (idx.lookup r.year).map (fun ci =>
      { geo := r.geo, year := r.year, value := r.value, cpi_index := ci,
        real_income := r.value / (ci / 100) }))

/-- Modelled from the spec: `sel`, the currently selected state's series, is
referenced by app.py (lines 103-151) but never defined there; per the spec it
is the selected state's income series. -/
def sel (inc : List IncomeRow) (state : String) : List IncomeRow :=
  inc.filter (fun r => r.geo == state)

/-- `income.sort_values("year")` (app.py line 131): sort by year. -/
def sortByYear (inc : List IncomeRow) : List IncomeRow :=
  List.insertionSort (fun a b => a.year ≤ b.year) inc

/-- The `real_income` series that `groupby("geo")` hands to the aggregation
lambda for state `g`: that state's rows of the year-sorted table. -/
def stateSeries (inc : List IncomeRow) (g : String) : List ℚ :=
  ((sortByYear inc).filter (fun r => r.geo == g)).map (fun r => r.real_income)

/-- The aggregation lambda of app.py line 133:
`(x.iloc[-1] / x.iloc[0] - 1) * 100 if len(x) > 1 else None`. -/
def pctChange (xs : List ℚ) : Option ℚ :=
  if xs.length ≤ 1 then none
  else
    match xs.head?, xs.getLast? with
    | some first, some last => some ((last / first - 1) * 100)
    | _, _ => none

/-- The group keys of `groupby("geo")`: distinct geo codes, ascending. -/
def geoKeys (inc : List IncomeRow) : List String :=
  List.insertionSort strLe ((inc.map (fun r => r.geo)).dedup)

/-- Lines 130-135 of app.py: per-state percent change, with the `None`
entries removed by `.dropna()`. -/
def growthTable (inc : List IncomeRow) : List (String × ℚ) :=
  (geoKeys inc).filterMap
    (fun g => (pctChange (stateSeries inc g)).map (fun q => (g, q)))

/-- `.sort_values("real_income_growth_pct", ascending=False)` (line 136). -/
def growthSortedDesc (inc : List IncomeRow) : List (String × ℚ) :=
  List.insertionSort (fun a b => b.2 ≤ a.2) (growthTable inc)

/-- `growth.head(10)` (app.py line 141). -/
def top10 (inc : List IncomeRow) : List (String × ℚ) :=
  (growthSortedDesc inc).take 10

/-- `growth.tail(10).sort_values("real_income_growth_pct")` (app.py line 144). -/
def bottom10 (inc : List IncomeRow) : List (String × ℚ) :=
  List.insertionSort (fun a b => a.2 ≤ b.2)
    ((growthSortedDesc inc).drop ((growthSortedDesc inc).length - 10))

/-- One CSV record of `sel.to_csv(index=False)`: the row's fields, comma
separated, with no leading index column. -/
def csvLine (r : IncomeRow) : String :=
  r.geo ++ "," ++ toString r.year ++ "," ++ toString r.value ++ "," ++
    toString r.cpi_index ++ "," ++ toString r.real_income

/-- `sel.to_csv(index=False)`: a header line then one record per row. -/
def toCsv (rows : List IncomeRow) : String :=
  String.intercalate "\n" ("geo,year,value,cpi_index,real_income" :: rows.map csvLine)

/-- The payload of `st.download_button` (app.py line 151). -/
def downloadData (inc : List IncomeRow) (state : String) : String :=
  toCsv (sel inc state)

/-- `file_name=f"{state}_real_income.csv"` (app.py line 152). -/
def downloadName (state : String) : String :=
  state ++ "_real_income.csv"

/-! ### Concrete sample data, used to instantiate the theorems below -/

/-- A January 2017 observation date. -/
def sampleDate17 : Date := ⟨2017, 1, 15⟩

/-- A January 2018 observation date. -/
def sampleDate18 : Date := ⟨2018, 1, 15⟩

/-- A national CPI observation for 2017. -/
def sampleCpiRaw : RawRow :=
  ⟨some sampleDate17, "US", "national", "CPIAUCSL", "cpi", some 200⟩

/-- A Maryland income observation for 2017, with lower-case geo code. -/
def sampleIncRaw : RawRow :=
  ⟨some sampleDate17, "md", "state", "SAINC1", "income_per_capita", some 50⟩

/-- A row whose date failed to parse (NaT). -/
def sampleBadRaw : RawRow :=
  ⟨none, "md", "state", "SAINC1", "income_per_capita", some 50⟩

/-- A well-formed uploaded sheet (note the unstripped, capitalised first
column name). -/
def sampleFrame : RawFrame :=
  ⟨[" Date ", "geo", "geo_level", "series", "topic", "value"],
   [sampleCpiRaw, sampleIncRaw, sampleBadRaw]⟩

/-- The frame `load_data` produces from `sampleFrame`. -/
def sampleOutFrame : Frame :=
  ⟨["date", "geo", "geo_level", "series", "topic", "value", "year"],
   [⟨sampleDate17, "US", "national", "CPIAUCSL", "cpi", 200, 2017⟩,
    ⟨sampleDate17, "MD", "state", "SAINC1", "income_per_capita", 50, 2017⟩]⟩

/-- The loaded rows of `sampleOutFrame`. -/
def sampleLoaded : List LoadedRow := sampleOutFrame.rows

/-- A sheet that lacks the `value` column. -/
def missingValueFrame : RawFrame :=
  ⟨["date", "geo", "geo_level", "series", "topic"], []⟩

/-- A sheet that lacks the `date` column. -/
def missingDateFrame : RawFrame := ⟨["geo"], []⟩

/-- A CPI index table with base year 2017. -/
def sampleIdx : List (Int × ℚ) := [(2017, 100)]

/-- The income row produced for Maryland 2017 at CPI index 100. -/
def sampleIncRow : IncomeRow := ⟨"MD", 2017, 50, 100, 50⟩

/-- A two-year Maryland real-income series. -/
def sampleIncome : List IncomeRow :=
  [⟨"MD", 2017, 50, 100, 50⟩, ⟨"MD", 2018, 66, 110, 60⟩]

/-- The Maryland row of `sampleOutFrame`. -/
def sampleLoadedMD : LoadedRow :=
  ⟨sampleDate17, "MD", "state", "SAINC1", "income_per_capita", 50, 2017⟩

/-! ### Helper lemmas -/

theorem length_filterMap_eq_countP {α β : Type} (f : α → Option β) (l : List α) :
    (l.filterMap f).length = l.countP (fun a => (f a).isSome) := by
  induction l with
  | nil => rfl
  | cons a l ih =>
      rw [List.filterMap_cons, List.countP_cons]
      cases h : f a <;> simp [h, ih]

theorem charListLe_cons_iff (a b : Char) (as bs : List Char) :
    charListLe (a :: as) (b :: bs) = true ↔
      a < b ∨ (a = b ∧ charListLe as bs = true) := by
  by_cases h1 : a < b
  · simp [charListLe, h1]
  · by_cases h2 : b < a
    · simp [charListLe, h1, h2]
      intro h
      exact absurd h2 (by simp [h])
    · have hab : a = b := le_antisymm (not_lt.mp h2) (not_lt.mp h1)
      simp [charListLe, h1, h2, hab]

theorem charListLe_total : ∀ as bs : List Char,
    charListLe as bs = true ∨ charListLe bs as = true := by
  intro as
  induction as with
  | nil => intro bs; left; rfl
  | cons a as ih =>
      intro bs
      cases bs with
      | nil => right; rfl
      | cons b bs =>
          rcases lt_trichotomy a b with h | h | h
          · left; exact (charListLe_cons_iff a b as bs).mpr (Or.inl h)
          · rcases ih bs with h2 | h2
            · left; exact (charListLe_cons_iff a b as bs).mpr (Or.inr ⟨h, h2⟩)
            · right; exact (charListLe_cons_iff b a bs as).mpr (Or.inr ⟨h.symm, h2⟩)
          · right; exact (charListLe_cons_iff b a bs as).mpr (Or.inl h)

theorem charListLe_trans : ∀ as bs cs : List Char,
    charListLe as bs = true → charListLe bs cs = true → charListLe as cs = true := by
  intro as
  induction as with
  | nil => intro bs cs _ _; rfl
  | cons a as ih =>
      intro bs cs h1 h2
      cases bs with
      | nil => exact absurd h1 (by simp [charListLe])
      | cons b bs =>
          cases cs with
          | nil => exact absurd h2 (by simp [charListLe])
          | cons c cs =>
              rcases (charListLe_cons_iff a b as bs).mp h1 with hab | ⟨hab, hr1⟩ <;>
                rcases (charListLe_cons_iff b c bs cs).mp h2 with hbc | ⟨hbc, hr2⟩
              · exact (charListLe_cons_iff a c as cs).mpr (Or.inl (hab.trans hbc))
              · exact (charListLe_cons_iff a c as cs).mpr (Or.inl (hbc ▸ hab))
              · exact (charListLe_cons_iff a c as cs).mpr (Or.inl (hab ▸ hbc))
              · exact (charListLe_cons_iff a c as cs).mpr
                  (Or.inr ⟨hab.trans hbc, ih bs cs hr1 hr2⟩)

instance : IsTotal String strLe :=
  ⟨fun a b => charListLe_total a.data b.data⟩

instance : IsTrans String strLe :=
  ⟨fun a b c => charListLe_trans a.data b.data c.data⟩

theorem lookup_filterMap_keyed {V : Type} (f : String → Option V) :
    ∀ (keys : List String) (g : String), g ∉ keys →
      (keys.filterMap (fun k => (f k).map (fun v => (k, v)))).lookup g = none := by
  intro keys
  induction keys with
  | nil => intro g _; rfl
  | cons k ks ih =>
      intro g hg
      rw [List.filterMap_cons]
      cases h : f k with
      | none => exact ih g (fun hm => hg (List.mem_cons_of_mem _ hm))
      | some v =>
          have hne : g ≠ k := fun he => hg (he ▸ List.mem_cons_self _ _)
          have hbeq : (g == k) = false := beq_eq_false_iff_ne.mpr hne
          simp only [Option.map_some', List.lookup_cons, hbeq]
          exact ih g (fun hm => hg (List.mem_cons_of_mem _ hm))

theorem lookup_filterMap_keyed_mem {V : Type} (f : String → Option V) :
    ∀ (keys : List String) (g : String), g ∈ keys → keys.Nodup →
      (keys.filterMap (fun k => (f k).map (fun v => (k, v)))).lookup g = f g := by
  intro keys
  induction keys with
  | nil => intro g hg _; exact absurd hg (List.not_mem_nil g)
  | cons k ks ih =>
      intro g hg hnd
      rw [List.nodup_cons] at hnd
      rw [List.filterMap_cons]
      rcases List.mem_cons.mp hg with he | hm
      · subst he
        cases h : f g with
        | none => exact lookup_filterMap_keyed f ks g hnd.1
        | some v => simp [List.lookup_cons]
      · have hne : g ≠ k := fun he => hnd.1 (he ▸ hm)
        cases h : f k with
        | none => exact ih g hm hnd.2
        | some v =>
            have hbeq : (g == k) = false := beq_eq_false_iff_ne.mpr hne
            simp only [Option.map_some', List.lookup_cons, hbeq]
            exact ih g hm hnd.2

theorem load_data_ok_inv (f : RawFrame) (out : Frame) (h : load_data f = .ok out) :
    out.cols = (if "year" ∈ normalizeColumns f.cols then normalizeColumns f.cols
                else normalizeColumns f.cols ++ ["year"])
    ∧ out.rows = f.rows.filterMap loadRow := by
  simp only [load_data] at h
  split_ifs at h with h1 h2 h3 h4 h5 h6
  · cases h
    exact ⟨(if_pos h6).symm, rfl⟩
  · cases h
    exact ⟨(if_neg h6).symm, rfl⟩

theorem loadRow_isSome (a : RawRow) :
    (loadRow a).isSome = (a.date.isSome && a.value.isSome) := by
  cases hd : a.date <;> cases hv : a.value <;> simp [loadRow, hd, hv]

theorem loadRow_fields (a : RawRow) (r : LoadedRow) (h : loadRow a = some r) :
    a.date = some r.date ∧ a.value = some r.value ∧ r.geo = upperStr a.geo ∧
      r.geo_level = a.geo_level ∧ r.series = a.series ∧ r.topic = a.topic ∧
      r.year = r.date.year := by
  cases hd : a.date with
  | none => rw [loadRow, hd] at h; cases h
  | some d =>
      cases hv : a.value with
      | none => rw [loadRow, hd, hv] at h; cases h
      | some v =>
          rw [loadRow, hd, hv] at h
          cases h
          exact ⟨rfl, rfl, rfl, rfl, rfl, rfl, rfl⟩

/-! ### Claim theorems -/

/-- C7: every row surviving `load_data` carries a `year` equal to the
calendar year of that row's parsed `date` timestamp. -/
theorem year_extracted_from_date (f : RawFrame) (out : Frame)
    (h : load_data f = .ok out) :
    ∀ r ∈ out.rows, r.year = r.date.year := by
  intro r hr
  rw [(load_data_ok_inv f out h).2] at hr
  rcases List.mem_filterMap.mp hr with ⟨a, _, hl⟩
  exact (loadRow_fields a r hl).2.2.2.2.2.2

/-- Witness for C7 on a concrete uploaded sheet and row. -/
theorem year_extracted_from_date_witness :
    sampleLoadedMD.year = sampleLoadedMD.date.year :=
  year_extracted_from_date sampleFrame sampleOutFrame (by decide)
    sampleLoadedMD (by decide)

/-- C8: after `load_data`, column names are stripped and lower-cased (with a
`year` column appended), every surviving row pairs a parsed date with a
non-null value, `geo` is upper-cased, and the string fields are carried over;
the rows with unparseable dates or missing values are dropped without any
report, so the output length is exactly the count of fully-parsed rows. -/
theorem load_data_row_invariants (f : RawFrame) (out : Frame)
    (h : load_data f = .ok out) :
    out.cols = (if "year" ∈ normalizeColumns f.cols then normalizeColumns f.cols
                else normalizeColumns f.cols ++ ["year"])
    ∧ out.rows.length = f.rows.countP (fun a => a.date.isSome && a.value.isSome)
    ∧ ∀ r ∈ out.rows, ∃ a ∈ f.rows,
        a.date = some r.date ∧ a.value = some r.value ∧ r.geo = upperStr a.geo ∧
          r.geo_level = a.geo_level ∧ r.series = a.series ∧ r.topic = a.topic := by
  obtain ⟨hc, hr⟩ := load_data_ok_inv f out h
  refine ⟨hc, ?_, ?_⟩
  · rw [hr, length_filterMap_eq_countP]
    exact List.countP_congr (fun a _ => by rw [loadRow_isSome a])
  · intro r hrm
    rw [hr] at hrm
    rcases List.mem_filterMap.mp hrm with ⟨a, ha, hl⟩
    obtain ⟨h1, h2, h3, h4, h5, h6, _⟩ := loadRow_fields a r hl
    exact ⟨a, ha, h1, h2, h3, h4, h5, h6⟩

/-- Witness for C8 on a concrete uploaded sheet. -/
theorem load_data_row_invariants_witness :
    sampleOutFrame.cols =
      (if "year" ∈ normalizeColumns sampleFrame.cols then
        normalizeColumns sampleFrame.cols
       else normalizeColumns sampleFrame.cols ++ ["year"])
    ∧ sampleOutFrame.rows.length =
        sampleFrame.rows.countP (fun a => a.date.isSome && a.value.isSome) :=
  ⟨(load_data_row_invariants sampleFrame sampleOutFrame (by decide)).1,
   (load_data_row_invariants sampleFrame sampleOutFrame (by decide)).2.1⟩

/-- C9: the state selector lists exactly the distinct two-character state-level
geo codes, without duplicates and in sorted order, and falls back to the
single option `"MD"` when that list is empty. -/
theorem state_selector_options (rows : List LoadedRow) :
    (∀ g, g ∈ state_list rows ↔
        ∃ r ∈ rows, r.geo_level = "state" ∧ r.geo.length = 2 ∧ r.geo = g)
    ∧ (state_list rows).Sorted strLe
    ∧ (state_list rows).Nodup
    ∧ (state_list rows = [] → stateOptions rows = ["MD"])
    ∧ (state_list rows ≠ [] → stateOptions rows = state_list rows) := by
  refine ⟨?_, ?_, ?_, ?_, ?_⟩
  · intro g
    unfold state_list
    rw [(List.perm_insertionSort strLe _).mem_iff, List.mem_dedup]
    simp only [List.mem_map, List.mem_filter, Bool.and_eq_true, beq_iff_eq,
      decide_eq_true_eq]
    constructor
    · rintro ⟨r, ⟨hm, h1, h2⟩, hg⟩
      exact ⟨r, hm, h1, h2, hg⟩
    · rintro ⟨r, hm, h1, h2, hg⟩
      exact ⟨r, ⟨hm, h1, h2⟩, hg⟩
  · exact List.sorted_insertionSort strLe _
  · exact ((List.perm_insertionSort strLe _).symm.nodup (List.nodup_dedup _))
  · intro h; simp [stateOptions, h]
  · intro h; simp [stateOptions, h]

/-- Witness for C9: the fallback on an empty table. -/
theorem state_selector_options_witness :
    stateOptions [] = ["MD"] :=
  (state_selector_options []).2.2.2.1 rfl

/-- C6: when the base-year CPI average is NaN (no base-year data) or zero, the
render aborts with the warning before `cpi_index` is computed; conversely a
computed index always divides by a non-NaN, non-zero base average. -/
theorem cpi_base_guard_blocks_invalid (rows : List LoadedRow) (y : Int) :
    ((base_cpi rows y = none ∨ base_cpi rows y = some 0) →
      cpiIndexResult rows y = .userAbort "Invalid CPI base year selected.")
    ∧ (∀ idx, cpiIndexResult rows y = .ok idx →
        ∃ b, base_cpi rows y = some b ∧ b ≠ 0 ∧
          idx = (cpi_annual rows).map (fun p => (p.1, p.2 / b * 100))) := by
  constructor
  · rintro (h | h) <;> simp [cpiIndexResult, h]
  · intro idx h
    cases hb : base_cpi rows y with
    | none =>
        simp only [cpiIndexResult, hb] at h
        exact Outcome.noConfusion h
    | some b =>
        simp only [cpiIndexResult, hb] at h
        by_cases hb0 : b = 0
        · rw [if_pos hb0] at h; exact Outcome.noConfusion h
        · rw [if_neg hb0] at h
          cases h
          exact ⟨b, rfl, hb0, rfl⟩

/-- Witness for C6: an empty table has a NaN base average and aborts. -/
theorem cpi_base_guard_blocks_invalid_witness :
    cpiIndexResult [] 2017 = .userAbort "Invalid CPI base year selected." :=
  (cpi_base_guard_blocks_invalid [] 2017).1 (Or.inl rfl)

/-- C5: the download button serialises exactly the selected state's rows as a
header line plus one comma-separated record per row (no index column), under
the file name `<state>_real_income.csv`. -/
theorem download_selected_state_csv (inc : List IncomeRow) (state : String) :
    downloadData inc state =
      String.intercalate "\n"
        ("geo,year,value,cpi_index,real_income" ::
          (inc.filter (fun r => r.geo == state)).map csvLine)
    ∧ (∀ r, r ∈ sel inc state ↔ r ∈ inc ∧ r.geo = state)
    ∧ downloadName state = state ++ "_real_income.csv" := by
  refine ⟨rfl, ?_, rfl⟩
  intro r
  simp [sel, List.mem_filter]

/-- Witness for C5 on a concrete series. -/
theorem download_selected_state_csv_witness :
    downloadData sampleIncome "MD" =
      String.intercalate "\n"
        ("geo,year,value,cpi_index,real_income" ::
          (sampleIncome.filter (fun r => r.geo == "MD")).map csvLine)
    ∧ downloadName "MD" = "MD" ++ "_real_income.csv" :=
  ⟨(download_selected_state_csv sampleIncome "MD").1,
   (download_selected_state_csv sampleIncome "MD").2.2⟩

/-- Counterexample to C4 as stated: a sheet lacking the `value` column makes
`load_data` raise an unhandled `KeyError` instead of aborting with a
user-facing message. -/
theorem missing_column_raises_keyerror :
    load_data missingValueFrame = .exception "KeyError: value" := by decide

/-- C4 (amended): an absent income topic is caught individually and aborts
the render with a user-facing message, but a missing expected column is not
caught — `load_data` raises an unhandled `KeyError`. -/
theorem income_topic_guard_aborts (rows : List LoadedRow) (f : RawFrame) :
    (income_topic rows = none →
      incomeTopicResult rows = .userAbort
        "This dataset does not include income data. Choose a different view or rebuild with BEA enabled.")
    ∧ ("date" ∉ normalizeColumns f.cols →
        load_data f = .exception "KeyError: date") := by
  constructor
  · intro h; simp [incomeTopicResult, h]
  · intro h; simp [load_data, h]

/-- Witness for C4 (amended): a table with no topics aborts with the message,
and a sheet without a `date` column raises. -/
theorem income_topic_guard_aborts_witness :
    incomeTopicResult [] = .userAbort
        "This dataset does not include income data. Choose a different view or rebuild with BEA enabled."
    ∧ load_data missingDateFrame = .exception "KeyError: date" :=
  ⟨(income_topic_guard_aborts [] missingDateFrame).1 rfl,
   (income_topic_guard_aborts [] missingDateFrame).2 (by decide)⟩

/-- C1: every row of the income table with the joined deflator has
`real_income` equal to the nominal `value` divided by `cpi_index / 100`,
where `cpi_index` is the CPI index recorded for that row's year. -/
theorem real_income_deflates_nominal (idx : List (Int × ℚ))
    (rows : List LoadedRow) (r : IncomeRow) (h : r ∈ addRealIncome idx rows) :
    r.real_income = r.value / (r.cpi_index / 100)
    ∧ idx.lookup r.year = some r.cpi_index := by
  rcases List.mem_filterMap.mp h with ⟨a, _, hl⟩
  cases hlk : idx.lookup a.year with
  | none => rw [hlk] at hl; cases hl
  | some ci =>
      rw [hlk] at hl
      simp only [Option.map_some'] at hl
      cases hl
      exact ⟨rfl, hlk⟩

/-- Witness for C1 on the concrete Maryland row. -/
theorem real_income_deflates_nominal_witness :
    sampleIncRow.real_income = sampleIncRow.value / (sampleIncRow.cpi_index / 100)
    ∧ sampleIdx.lookup sampleIncRow.year = some sampleIncRow.cpi_index :=
  real_income_deflates_nominal sampleIdx sampleLoaded sampleIncRow
    (by simp [addRealIncome, sampleIdx, sampleLoaded, sampleOutFrame, sampleIncRow])

/-- Length of a state's year-sorted real-income series equals the number of
that state's observations in the income table. -/
theorem stateSeries_length (inc : List IncomeRow) (g : String) :
    (stateSeries inc g).length = inc.countP (fun r => r.geo == g) := by
  unfold stateSeries sortByYear
  rw [List.length_map, ← List.countP_eq_length_filter]
  exact (List.perm_insertionSort _ inc).countP_eq _

/-- C10: every row of the growth table belongs to a state with at least two
observations in the income table; single-observation states are dropped. -/
theorem growth_excludes_single_observation (inc : List IncomeRow)
    (p : String × ℚ) (h : p ∈ growthTable inc) :
    2 ≤ inc.countP (fun r => r.geo == p.1) := by
  rcases List.mem_filterMap.mp h with ⟨g, _, hp⟩
  cases hpc : pctChange (stateSeries inc g) with
  | none => rw [hpc] at hp; cases hp
  | some q =>
      rw [hpc] at hp
      simp only [Option.map_some'] at hp
      cases hp
      show 2 ≤ inc.countP (fun r => r.geo == g)
      rw [← stateSeries_length]
      unfold pctChange at hpc
      by_cases hl : (stateSeries inc g).length ≤ 1
      · rw [if_pos hl] at hpc; cases hpc
      · omega

/-- Witness for C10 on the concrete two-observation series. -/
theorem growth_excludes_single_observation_witness :
    2 ≤ sampleIncome.countP (fun r => r.geo == "MD") :=
  growth_excludes_single_observation sampleIncome ("MD", ((60 : ℚ) / 50 - 1) * 100)
    (List.mem_cons_self _ _)

/-- The `geo` group keys contain no duplicates. -/
theorem geoKeys_nodup (inc : List IncomeRow) : (geoKeys inc).Nodup :=
  (List.perm_insertionSort strLe _).symm.nodup (List.nodup_dedup _)

/-- Membership in the `geo` group keys. -/
theorem mem_geoKeys (inc : List IncomeRow) (g : String) :
    g ∈ geoKeys inc ↔ g ∈ inc.map (fun r => r.geo) := by
  unfold geoKeys
  rw [(List.perm_insertionSort strLe _).mem_iff, List.mem_dedup]

/-- C3: a state with at least two observations is ranked by the percent
change between the first and last entries of its year-sorted real-income
series; the top table is the first ten of the growth table sorted descending
by that value, the bottom table is the last ten re-sorted ascending. -/
theorem growth_ranking_first_last_pct (inc : List IncomeRow) (g : String)
    (h : 2 ≤ inc.countP (fun r => r.geo == g)) :
    (∃ first lastv, (stateSeries inc g).head? = some first ∧
        (stateSeries inc g).getLast? = some lastv ∧
        (growthTable inc).lookup g = some ((lastv / first - 1) * 100))
    ∧ (growthSortedDesc inc).Perm (growthTable inc)
    ∧ (growthSortedDesc inc).Sorted (fun a b => b.2 ≤ a.2)
    ∧ top10 inc = (growthSortedDesc inc).take 10
    ∧ (bottom10 inc).Perm
        ((growthSortedDesc inc).drop ((growthSortedDesc inc).length - 10))
    ∧ (bottom10 inc).Sorted (fun a b => a.2 ≤ b.2) := by
  have hlen : 2 ≤ (stateSeries inc g).length := by rw [stateSeries_length]; exact h
  have hmemk : g ∈ geoKeys inc := by
    rw [mem_geoKeys, List.mem_map]
    have hpos : 0 < inc.countP (fun r => r.geo == g) := by omega
    rcases List.countP_pos_iff.mp hpos with ⟨r, hr, hgeo⟩
    exact ⟨r, hr, by simpa using hgeo⟩
  have hlk : (growthTable inc).lookup g = pctChange (stateSeries inc g) := by
    unfold growthTable
    exact lookup_filterMap_keyed_mem (fun k => pctChange (stateSeries inc k))
      (geoKeys inc) g hmemk (geoKeys_nodup inc)
  refine ⟨?_, ?_, ?_, rfl, ?_, ?_⟩
  · cases hs : stateSeries inc g with
    | nil => rw [hs] at hlen; simp at hlen
    | cons x t =>
        cases t with
        | nil => rw [hs] at hlen; simp at hlen
        | cons y rest =>
            refine ⟨x, (x :: y :: rest).getLast (List.cons_ne_nil _ _), rfl, ?_, ?_⟩
            · exact List.getLast?_eq_getLast _ _
            · rw [hlk, hs]
              unfold pctChange
              rw [if_neg (by simp)]
              rw [List.getLast?_eq_getLast _ (List.cons_ne_nil _ _)]
              rfl
  · exact List.perm_insertionSort _ _
  · haveI : IsTotal (String × ℚ) (fun a b => b.2 ≤ a.2) := ⟨fun a b => le_total b.2 a.2⟩
    haveI : IsTrans (String × ℚ) (fun a b => b.2 ≤ a.2) :=
      ⟨fun _ _ _ hab hbc => le_trans hbc hab⟩
    exact List.sorted_insertionSort _ _
  · exact List.perm_insertionSort _ _
  · haveI : IsTotal (String × ℚ) (fun a b => a.2 ≤ b.2) := ⟨fun a b => le_total a.2 b.2⟩
    haveI : IsTrans (String × ℚ) (fun a b => a.2 ≤ b.2) :=
      ⟨fun _ _ _ hab hbc => le_trans hab hbc⟩
    exact List.sorted_insertionSort _ _

/-- Witness for C3 on the concrete two-observation series. -/
theorem growth_ranking_first_last_pct_witness :
    (stateSeries sampleIncome "MD").head? = some 50
    ∧ (stateSeries sampleIncome "MD").getLast? = some 60
    ∧ (growthTable sampleIncome).lookup "MD" = some (((60 : ℚ) / 50 - 1) * 100)
    ∧ top10 sampleIncome = (growthSortedDesc sampleIncome).take 10 := by
  obtain ⟨⟨f, l, h1, h2, h3⟩, -, -, h4, -, -⟩ :=
    growth_ranking_first_last_pct sampleIncome "MD" (by decide)
  have hf : (stateSeries sampleIncome "MD").head? = some 50 := rfl
  have hl : (stateSeries sampleIncome "MD").getLast? = some 60 := rfl
  rw [hf] at h1
  rw [hl] at h2
  cases h1
  cases h2
  exact ⟨hf, hl, h3, h4⟩

/-- The first components of the annual CPI table form a sublist of the group
keys, hence are duplicate-free. -/
theorem map_fst_filterMap_sub {β : Type} (g : Int → Option β) (l : List Int) :
    ((l.filterMap (fun y => (g y).map (fun m => (y, m)))).map Prod.fst).Sublist l := by
  induction l with
  | nil => simp
  | cons a l ih =>
      rw [List.filterMap_cons]
      cases hg : g a with
      | none => exact ih.cons a
      | some m =>
          simp only [Option.map_some', List.map_cons]
          exact ih.cons₂ a

/-- The annual CPI table has one entry per year. -/
theorem cpi_annual_keys_nodup (rows : List LoadedRow) :
    ((cpi_annual rows).map Prod.fst).Nodup := by
  have hnd : (cpiYears rows).Nodup :=
    (List.perm_insertionSort _ _).symm.nodup (List.nodup_dedup _)
  exact (map_fst_filterMap_sub
    (fun y => mean (yearValues (cpiRows rows) y)) (cpiYears rows)).nodup hnd

/-- Filtering a duplicate-key-free pair list by a key yields nothing or the
unique entry with that key. -/
theorem filter_key_nodup {V : Type} :
    ∀ l : List (Int × V), (l.map Prod.fst).Nodup → ∀ y : Int,
      l.filter (fun p => p.1 == y) = [] ∨
      ∃ m, (y, m) ∈ l ∧ l.filter (fun p => p.1 == y) = [(y, m)] := by
  intro l
  induction l with
  | nil => intro _ y; left; rfl
  | cons p ps ih =>
      intro hnd y
      rw [List.map_cons, List.nodup_cons] at hnd
      by_cases hp : p.1 = y
      · subst hp
        right
        refine ⟨p.2, List.mem_cons_self _ _, ?_⟩
        rw [List.filter_cons]
        have hc : (p.1 == p.1) = true := beq_self_eq_true _
        rw [if_pos hc]
        have hrest : ps.filter (fun q => q.1 == p.1) = [] := by
          rw [List.filter_eq_nil_iff]
          intro q hq
          simp only [beq_iff_eq]
          exact fun he => hnd.1 (he ▸ List.mem_map_of_mem Prod.fst hq)
        rw [hrest]
      · rw [List.filter_cons]
        have hc : (p.1 == y) = false := beq_eq_false_iff_ne.mpr hp
        rw [hc]
        rcases ih hnd.2 y with he | ⟨m, hm, he⟩
        · left; simpa using he
        · right; exact ⟨m, List.mem_cons_of_mem _ hm, by simpa using he⟩

/-- C2: with a non-NaN, non-zero base-year average `b`, the index table maps
every annual entry `(y, m)` — where `m` is the mean of year `y`'s CPI
values — to `(y, m / b * 100)`; the base year itself appears with mean `b`
and is mapped to index 100. -/
theorem cpi_index_normalizes_to_base (rows : List LoadedRow) (y : Int) (b : ℚ)
    (hb : base_cpi rows y = some b) (hb0 : b ≠ 0) :
    cpiIndexResult rows y =
      .ok ((cpi_annual rows).map (fun p => (p.1, p.2 / b * 100)))
    ∧ (y, b) ∈ cpi_annual rows
    ∧ (∀ p ∈ cpi_annual rows, mean (yearValues (cpiRows rows) p.1) = some p.2)
    ∧ (y, (100 : ℚ)) ∈ (cpi_annual rows).map (fun p => (p.1, p.2 / b * 100)) := by
  have hmem : (y, b) ∈ cpi_annual rows := by
    rcases filter_key_nodup (cpi_annual rows) (cpi_annual_keys_nodup rows) y
      with he | ⟨m, hm, he⟩
    · unfold base_cpi at hb
      rw [he] at hb
      simp [mean] at hb
    · unfold base_cpi at hb
      rw [he] at hb
      simp [mean] at hb
      rwa [hb] at hm
  refine ⟨?_, hmem, ?_, ?_⟩
  · simp [cpiIndexResult, hb, hb0]
  · intro p hp
    rcases List.mem_filterMap.mp hp with ⟨yy, _, hm⟩
    cases hmm : mean (yearValues (cpiRows rows) yy) with
    | none => rw [hmm] at hm; cases hm
    | some m =>
        rw [hmm] at hm
        simp only [Option.map_some'] at hm
        cases hm
        exact hmm
  · have hmm := List.mem_map_of_mem (fun p => (p.1, p.2 / b * 100)) hmem
    have heq : b / b * 100 = (100 : ℚ) := by rw [div_self hb0, one_mul]
    simpa [heq] using hmm

/-- Witness for C2 on the concrete one-year CPI table. -/
theorem cpi_index_normalizes_to_base_witness :
    cpiIndexResult sampleLoaded 2017 =
      .ok ((cpi_annual sampleLoaded).map (fun p => (p.1, p.2 / 200 * 100)))
    ∧ (2017, (200 : ℚ)) ∈ cpi_annual sampleLoaded
    ∧ (2017, (100 : ℚ)) ∈
        (cpi_annual sampleLoaded).map (fun p => (p.1, p.2 / 200 * 100)) := by
  have h := cpi_index_normalizes_to_base sampleLoaded 2017 200
    (by simp [base_cpi, cpi_annual, cpiYears, cpiRows, yearValues, mean,
      sampleLoaded, sampleOutFrame])
    (by simp)
  exact ⟨h.1, h.2.1, h.2.2.2⟩

end RealIncomeExplorer
